import Mathlib

/-!
Verification of the safety-scoring core of the minimalist weather PWA.

The embedded functions mirror `safetyScore`, `scoreToLevel` and
`levelLabel` from `src/App.tsx`.  JavaScript numbers are modelled as
rationals (the thresholds and every test value are exact decimals), and
the integer score is modelled as `ℤ`.
-/

/-- The activity selector, `type Activity = "running" | "cycling"`. -/
inductive Activity : Type
  | running : Activity
  | cycling : Activity
deriving DecidableEq

/-- The advisory level, the return type of `scoreToLevel`:
`"green" | "yellow" | "red"`. -/
inductive Level : Type
  | green : Level
  | yellow : Level
  | red : Level
deriving DecidableEq

/-- The argument record of `safetyScore`:
`{ activity; tempC; windKmh; precipMm; precipProb; aqiUS?; weatherCode? }`.
The optional fields `aqiUS` (number | null | undefined) and `weatherCode`
are modelled as `Option ℚ`. -/
structure Reading : Type where
  activity : Activity
  tempC : ℚ
  windKmh : ℚ
  precipMm : ℚ
  precipProb : ℚ
  aqiUS : Option ℚ
  weatherCode : Option ℚ
deriving DecidableEq

/-- The temperature block of `safetyScore` (the amount added to `score`). -/
def tempScore (activity : Activity) (tempC : ℚ) : ℤ :=
  match activity with
  | Activity.running =>
    if tempC ≥ 7 ∧ tempC ≤ 18 then 0
    else if (tempC > 18 ∧ tempC ≤ 26) ∨ (tempC ≥ -5 ∧ tempC < 7) then 1
    else 2
  | Activity.cycling =>
    if tempC ≥ 10 ∧ tempC ≤ 24 then 0
    else if (tempC > 24 ∧ tempC ≤ 30) ∨ (tempC ≥ 0 ∧ tempC < 10) then 1
    else 2

/-- The wind block of `safetyScore` (the amount added to `score`). -/
def windScore (activity : Activity) (windKmh : ℚ) : ℤ :=
  match activity with
  | Activity.running =>
    if windKmh ≤ 25 then 0
    else if windKmh ≤ 39 then 1
    else 2
  | Activity.cycling =>
    if windKmh ≤ 20 then 0
    else if windKmh ≤ 32 then 1
    else 2

/-- The precipitation block of `safetyScore` (the amount added to `score`). -/
def precipScore (precipMm : ℚ) (precipProb : ℚ) : ℤ :=
  if precipMm ≥ 3 then 2
  else if precipMm ≥ 1 ∨ precipProb ≥ 50 then 1
  else 0

/-- The air-quality block of `safetyScore`: the branch is guarded by
`typeof aqiUS === "number"`, so a missing index adds nothing. -/
def aqiScore (aqiUS : Option ℚ) : ℤ :=
  match aqiUS with
  | none => 0
  | some a =>
    if a ≤ 50 then 0
    else if a ≤ 100 then 1
    else 2

/-- `safetyScore`: starts at 0 and accumulates the four blocks in order. -/
def safetyScore (p : Reading) : ℤ :=
  tempScore p.activity p.tempC + windScore p.activity p.windKmh
    + precipScore p.precipMm p.precipProb + aqiScore p.aqiUS

/-- `scoreToLevel`: green if score ≤ 2, yellow if score ≤ 4, red otherwise. -/
def scoreToLevel (score : ℤ) : Level :=
  if score ≤ 2 then Level.green
  else if score ≤ 4 then Level.yellow
  else Level.red

/-- `levelLabel`: the display label of each level. -/
def levelLabel (level : Level) : String :=
  match level with
  | Level.green => "Ideal for outdoors"
  | Level.yellow => "Caution advised"
  | Level.red => "Not recommended"

/-- Severity order used by the spec: ideal < caution < not-recommended. -/
def levelSeverity (level : Level) : ℕ :=
  match level with
  | Level.green => 0
  | Level.yellow => 1
  | Level.red => 2

/-- Claim C1: the temperature sub-score added by `safetyScore` follows the
activity-specific table with boundary-inclusive comparisons: for running it
is 0 on [7, 18], 1 on (18, 26] ∪ [-5, 7) and 2 otherwise; for cycling it is
0 on [10, 24], 1 on (24, 30] ∪ [0, 10) and 2 otherwise.  In particular, for
running, 18.0 contributes 0 and 18.01 contributes 1. -/
theorem tempScore_table (t : ℚ) :
    ((7 ≤ t ∧ t ≤ 18) → tempScore Activity.running t = 0) ∧
    (((18 < t ∧ t ≤ 26) ∨ (-5 ≤ t ∧ t < 7)) → tempScore Activity.running t = 1) ∧
    ((t < -5 ∨ 26 < t) → tempScore Activity.running t = 2) ∧
    ((10 ≤ t ∧ t ≤ 24) → tempScore Activity.cycling t = 0) ∧
    (((24 < t ∧ t ≤ 30) ∨ (0 ≤ t ∧ t < 10)) → tempScore Activity.cycling t = 1) ∧
    ((t < 0 ∨ 30 < t) → tempScore Activity.cycling t = 2) ∧
    tempScore Activity.running 18 = 0 ∧ tempScore Activity.running 18.01 = 1 := by
  refine ⟨?_, ?_, ?_, ?_, ?_, ?_, by norm_num [tempScore], by norm_num [tempScore]⟩ <;>
    (intro h
     simp only [tempScore]
     split_ifs with h1 h2 <;>
       first
         | rfl
         | (exfalso
            simp only [not_and_or, not_or, not_lt, not_le, ge_iff_le, gt_iff_lt] at *
            (try casesm* _ ∨ _, _ ∧ _) <;> linarith))

/-- Witness for C1: every case of the table is applied at a concrete input. -/
theorem tempScore_table_witness :
    tempScore Activity.running 12 = 0 ∧ tempScore Activity.running 20 = 1 ∧
      tempScore Activity.running 27 = 2 ∧ tempScore Activity.cycling 15 = 0 ∧
      tempScore Activity.cycling 5 = 1 ∧ tempScore Activity.cycling 31 = 2 :=
  ⟨(tempScore_table 12).1 ⟨by norm_num, by norm_num⟩,
   (tempScore_table 20).2.1 (Or.inl ⟨by norm_num, by norm_num⟩),
   (tempScore_table 27).2.2.1 (Or.inr (by norm_num)),
   (tempScore_table 15).2.2.2.1 ⟨by norm_num, by norm_num⟩,
   (tempScore_table 5).2.2.2.2.1 (Or.inr ⟨by norm_num, by norm_num⟩),
   (tempScore_table 31).2.2.2.2.2.1 (Or.inr (by norm_num))⟩

/-- Claim C2: the wind sub-score added by `safetyScore` follows the
activity-specific table, ties at each threshold resolving to the lower
sub-score: running scores 0 for w ≤ 25, 1 for 25 < w ≤ 39, 2 for w > 39;
cycling scores 0 for w ≤ 20, 1 for 20 < w ≤ 32, 2 for w > 32. -/
theorem windScore_table (w : ℚ) :
    (w ≤ 25 → windScore Activity.running w = 0) ∧
    (25 < w ∧ w ≤ 39 → windScore Activity.running w = 1) ∧
    (39 < w → windScore Activity.running w = 2) ∧
    (w ≤ 20 → windScore Activity.cycling w = 0) ∧
    (20 < w ∧ w ≤ 32 → windScore Activity.cycling w = 1) ∧
    (32 < w → windScore Activity.cycling w = 2) := by
  refine ⟨?_, ?_, ?_, ?_, ?_, ?_⟩ <;>
    (intro h
     simp only [windScore]
     split_ifs with h1 h2 <;>
       first
         | rfl
         | (exfalso
            simp only [not_and_or, not_or, not_lt, not_le, ge_iff_le, gt_iff_lt] at *
            (try casesm* _ ∨ _, _ ∧ _) <;> linarith))

/-- Witness for C2: every case of the table is applied at a concrete input. -/
theorem windScore_table_witness :
    windScore Activity.running 10 = 0 ∧ windScore Activity.running 30 = 1 ∧
      windScore Activity.running 45 = 2 ∧ windScore Activity.cycling 10 = 0 ∧
      windScore Activity.cycling 25 = 1 ∧ windScore Activity.cycling 40 = 2 :=
  ⟨(windScore_table 10).1 (by norm_num),
   (windScore_table 30).2.1 ⟨by norm_num, by norm_num⟩,
   (windScore_table 45).2.2.1 (by norm_num),
   (windScore_table 10).2.2.2.1 (by norm_num),
   (windScore_table 25).2.2.2.2.1 ⟨by norm_num, by norm_num⟩,
   (windScore_table 40).2.2.2.2.2 (by norm_num)⟩

/-- Claim C3: the precipitation sub-score added by `safetyScore` is 2 when
precipMm ≥ 3, else 1 when precipMm ≥ 1 or precipProb ≥ 50, else 0; and it
is identical for both activities: a reading whose activity is replaced
contributes the same precipitation sub-score. -/
theorem precipScore_table (mm prob : ℚ) :
    (3 ≤ mm → precipScore mm prob = 2) ∧
    (mm < 3 → 1 ≤ mm ∨ 50 ≤ prob → precipScore mm prob = 1) ∧
    (mm < 1 → prob < 50 → precipScore mm prob = 0) ∧
    (∀ (r : Reading) (a : Activity),
      precipScore ({ r with activity := a }).precipMm ({ r with activity := a }).precipProb
        = precipScore r.precipMm r.precipProb) := by
  refine ⟨?_, ?_, ?_, fun r a => rfl⟩ <;>
    (intros
     simp only [precipScore]
     split_ifs <;>
       first
         | rfl
         | (exfalso
            simp only [not_and_or, not_or, not_lt, not_le, ge_iff_le, gt_iff_lt] at *
            (try casesm* _ ∨ _, _ ∧ _) <;> linarith))

/-- Witness for C3: each precipitation case applied at a concrete input. -/
theorem precipScore_table_witness :
    precipScore 4 0 = 2 ∧ precipScore 2 60 = 1 ∧ precipScore 0 0 = 0 :=
  ⟨(precipScore_table 4 0).1 (by norm_num),
   (precipScore_table 2 60).2.1 (by norm_num) (Or.inl (by norm_num)),
   (precipScore_table 0 0).2.2.1 (by norm_num) (by norm_num)⟩

/-- Claim C4: supplying a numeric AQI adds exactly the AQI sub-score
(0 if a ≤ 50, 1 if 50 < a ≤ 100, 2 if a > 100) on top of the score with
the AQI absent, and with the AQI absent the score is exactly the sum of
the other three sub-scores: absence contributes 0 and changes nothing
else. -/
theorem safetyScore_aqi_decomposition (r : Reading) (a : ℚ) :
    safetyScore { r with aqiUS := some a }
      = safetyScore { r with aqiUS := none }
          + (if a ≤ 50 then 0 else if a ≤ 100 then 1 else 2) ∧
    safetyScore { r with aqiUS := none }
      = tempScore r.activity r.tempC + windScore r.activity r.windKmh
          + precipScore r.precipMm r.precipProb := by
  constructor
  · simp only [safetyScore, aqiScore]
    ring
  · simp only [safetyScore, aqiScore]
    ring

/-- Claim C5: `scoreToLevel` returns green exactly when the score is ≤ 2,
yellow exactly when it is in [3, 4], red exactly when it is ≥ 5, and the
green/yellow/red variants carry the ideal/caution/not-recommended labels
via `levelLabel`. -/
theorem scoreToLevel_thresholds (s : ℤ) :
    (scoreToLevel s = Level.green ↔ s ≤ 2) ∧
    (scoreToLevel s = Level.yellow ↔ 3 ≤ s ∧ s ≤ 4) ∧
    (scoreToLevel s = Level.red ↔ 5 ≤ s) ∧
    levelLabel Level.green = "Ideal for outdoors" ∧
    levelLabel Level.yellow = "Caution advised" ∧
    levelLabel Level.red = "Not recommended" := by
  refine ⟨?_, ?_, ?_, rfl, rfl, rfl⟩ <;>
    (simp only [scoreToLevel]
     split_ifs with h1 h2 <;> simp <;> omega)

/-- Claim C6: for every reading the score is an integer between 0 and 8. -/
theorem safetyScore_bounds (r : Reading) : 0 ≤ safetyScore r ∧ safetyScore r ≤ 8 := by
  obtain ⟨act, t, w, mm, prob, aqi, wc⟩ := r
  have ht : 0 ≤ tempScore act t ∧ tempScore act t ≤ 2 := by
    cases act <;> (simp only [tempScore]; split_ifs <;> norm_num)
  have hw : 0 ≤ windScore act w ∧ windScore act w ≤ 2 := by
    cases act <;> (simp only [windScore]; split_ifs <;> norm_num)
  have hp : 0 ≤ precipScore mm prob ∧ precipScore mm prob ≤ 2 := by
    simp only [precipScore]; split_ifs <;> norm_num
  have ha : 0 ≤ aqiScore aqi ∧ aqiScore aqi ≤ 2 := by
    cases aqi with
    | none => norm_num [aqiScore]
    | some a => simp only [aqiScore]; split_ifs <;> norm_num
  simp only [safetyScore]
  constructor <;> linarith [ht.1, ht.2, hw.1, hw.2, hp.1, hp.2, ha.1, ha.2]

/-- Claim C7: the five concrete spec scenarios: four running readings with
scores 0 (green), 4 (yellow), 4 (yellow), 4 (yellow) and one cycling
reading with score 8 (red). -/
theorem safetyScore_scenarios :
    safetyScore ⟨Activity.running, 12, 10, 0, 0, some 30, none⟩ = 0 ∧
    scoreToLevel (safetyScore ⟨Activity.running, 12, 10, 0, 0, some 30, none⟩) = Level.green ∧
    safetyScore ⟨Activity.running, 30, 45, 0, 0, none, none⟩ = 4 ∧
    scoreToLevel (safetyScore ⟨Activity.running, 30, 45, 0, 0, none, none⟩) = Level.yellow ∧
    safetyScore ⟨Activity.running, 12, 10, 5, 90, some 150, none⟩ = 4 ∧
    scoreToLevel (safetyScore ⟨Activity.running, 12, 10, 5, 90, some 150, none⟩) = Level.yellow ∧
    safetyScore ⟨Activity.running, -10, 50, 0, 0, none, none⟩ = 4 ∧
    scoreToLevel (safetyScore ⟨Activity.running, -10, 50, 0, 0, none, none⟩) = Level.yellow ∧
    safetyScore ⟨Activity.cycling, 35, 40, 4, 100, some 120, none⟩ = 8 ∧
    scoreToLevel (safetyScore ⟨Activity.cycling, 35, 40, 4, 100, some 120, none⟩) = Level.red := by
  decide

/-- Claim C8: `scoreToLevel` is monotone with respect to the severity
order green < yellow < red. -/
theorem scoreToLevel_monotone (s1 s2 : ℤ) (h : s1 ≤ s2) :
    levelSeverity (scoreToLevel s1) ≤ levelSeverity (scoreToLevel s2) := by
  simp only [scoreToLevel]
  split_ifs <;> simp [levelSeverity] <;> omega

/-- Witness for C8 at scores 1 ≤ 5. -/
theorem scoreToLevel_monotone_witness :
    levelSeverity (scoreToLevel 1) ≤ levelSeverity (scoreToLevel 5) :=
  scoreToLevel_monotone 1 5 (by norm_num)

/-- Claim C9: evaluation is a deterministic function of the reading, and
the `weatherCode` field, accepted by `safetyScore` but absent from the
spec Reading, has no influence on score or level. -/
theorem safetyScore_deterministic :
    (∀ r1 r2 : Reading, r1 = r2 →
      safetyScore r1 = safetyScore r2 ∧
        scoreToLevel (safetyScore r1) = scoreToLevel (safetyScore r2)) ∧
    (∀ (r : Reading) (w : Option ℚ),
      safetyScore { r with weatherCode := w } = safetyScore r ∧
        scoreToLevel (safetyScore { r with weatherCode := w })
          = scoreToLevel (safetyScore r)) := by
  refine ⟨fun r1 r2 h => ?_, fun r w => ⟨rfl, rfl⟩⟩
  rw [h]
  exact ⟨rfl, rfl⟩

/-- Witness for C9 at a concrete reading. -/
theorem safetyScore_deterministic_witness :
    safetyScore ⟨Activity.cycling, 20, 15, 0, 10, none, some 3⟩
      = safetyScore ⟨Activity.cycling, 20, 15, 0, 10, none, some 3⟩ :=
  (safetyScore_deterministic.1 ⟨Activity.cycling, 20, 15, 0, 10, none, some 3⟩
    ⟨Activity.cycling, 20, 15, 0, 10, none, some 3⟩ rfl).1

/-- Claim C10: evaluation is total: every reading, however extreme or
out-of-range its numeric fields, gets a score (an integer, by the type of
`safetyScore`) whose level is one of the three variants. -/
theorem evaluation_total (r : Reading) :
    scoreToLevel (safetyScore r) = Level.green ∨
      scoreToLevel (safetyScore r) = Level.yellow ∨
        scoreToLevel (safetyScore r) = Level.red := by
  cases h : scoreToLevel (safetyScore r)
  · exact Or.inl rfl
  · exact Or.inr (Or.inl rfl)
  · exact Or.inr (Or.inr rfl)
